import Mathlib

/-!
Verification of the uniblox-server e-commerce backend (Python sources:
models.py, services.py, main_app.py) against its natural-language
specification.

Modelling conventions:
* Python `float` money/percentage values are modelled as exact rationals
  (`ℚ`).  Every concrete value appearing in the claims (100, 10%, 90, ...)
  is represented exactly by a binary double, and every arithmetic step the
  code performs on those concrete values is exact in IEEE double as well,
  so the rational model agrees with the float execution on all inputs used
  in witnesses and counterexamples.
* `datetime.utcnow()` is modelled by an explicit `now : ℚ` argument passed
  to each operation that reads the clock; `timedelta(days = n)` is
  `n * 86400` on that time axis.
* Python `Item` objects are mutable and aliased (cart lists and order
  lists may reference the same object).  This aliasing is modelled with an
  explicit heap: a `List Item` of object states, addressed by index; carts
  and orders store addresses, and mutation of an `Item` is an update of
  the heap at its address.
* `uuid.uuid4()`-based identifiers (order ids, generated discount-code
  suffixes) are modelled by fresh-identifier counters in the store.  The
  spec itself treats uuid collisions as negligible and uniqueness as
  assumed, so freshness is the faithful abstraction.
* Python exceptions (`ValueError` and the HTTP error returns) are modelled
  by `Except String`.  Because the Python store is a shared mutable
  object, an operation that mutates the store and then raises leaves the
  mutation in place; accordingly every stateful operation returns
  `Store × Except String α`: the first component is the store as it is
  after the call, whether or not the call failed.
-/

/-- models.py `Item`: an item with id, name, price and quantity.
Price is a Python float (modelled as `ℚ`), quantity a Python int
(modelled as `ℤ`). -/
structure Item where
  item_id : String
  name : String
  price : ℚ
  quantity : ℤ
deriving DecidableEq, Repr

instance : Inhabited Item := ⟨⟨"", "", 0, 0⟩⟩

/-- python `timedelta(days = n)` on the rational time axis (seconds). -/
def timedelta_days (n : ℚ) : ℚ := n * 86400

/-- models.py `DiscountCode` field record (state after any mutation). -/
structure DiscountCode where
  code : String
  discount_percentage : ℚ
  is_used : Bool
  created_at : ℚ
  used_at : Option ℚ
  expires_at : Option ℚ
deriving DecidableEq, Repr

/-- models.py `DiscountCode(...)` construction including `__post_init__`:
if `expires_at` is not provided it is set to `created_at + 30 days`. -/
def DiscountCode.mk_post (code : String) (pct : ℚ) (is_used : Bool)
    (created_at : ℚ) (used_at : Option ℚ) (expires_at : Option ℚ) :
    DiscountCode :=
  ⟨code, pct, is_used, created_at, used_at,
    some (expires_at.getD (created_at + timedelta_days 30))⟩

/-- models.py `DiscountCode.is_valid`, at clock reading `now`.  Mirrors the
Python truthiness test `if self.expires_at and utcnow() > self.expires_at`
(a `None` expiry is falsy and skips the expiry check). -/
def DiscountCode.is_valid (dc : DiscountCode) (now : ℚ) : Bool :=
  if dc.is_used then false
  else
    match dc.expires_at with
    | some e => if now > e then false else true
    | none => true

/-- models.py `DiscountCode.use`: mark used at time `now`. -/
def DiscountCode.use (dc : DiscountCode) (now : ℚ) : DiscountCode :=
  { dc with is_used := true, used_at := some now }

/-- models.py `Order`.  `items` is the list of heap addresses of the Item
objects the order references (Python list of object references). -/
structure Order where
  order_id : ℕ
  user_id : String
  items : List ℕ
  subtotal : ℚ
  discount_code : Option String
  discount_amount : ℚ
  total_amount : ℚ
  created_at : ℚ
deriving DecidableEq, Repr

/-- models.py `Order(...)` construction including `__post_init__`:
if the passed `total_amount` equals `0.0` it is recomputed as
`subtotal - discount_amount`. -/
def Order.mk_post (oid : ℕ) (uid : String) (items : List ℕ) (subtotal : ℚ)
    (dcode : Option String) (damount : ℚ) (total : ℚ) (created : ℚ) :
    Order :=
  ⟨oid, uid, items, subtotal, dcode, damount,
    if total = 0 then subtotal - damount else total, created⟩

/-- models.py `Cart`: user id and the heap addresses of the Item objects
currently in the cart. -/
structure Cart where
  user_id : String
  items : List ℕ
  created_at : ℚ
  updated_at : ℚ
deriving DecidableEq, Repr

/-- Insertion-ordered association-list update, with Python `dict`
assignment semantics: replace in place if the key exists, append
otherwise. -/
def updAssoc {β : Type} (k : String) (v : β) : List (String × β) → List (String × β)
  | [] => [(k, v)]
  | (k', v') :: rest =>
      if k' = k then (k, v) :: rest else (k', v') :: updAssoc k v rest

/-- Python `dict.get`: lookup in an association list. -/
def getAssoc {β : Type} (k : String) : List (String × β) → Option β
  | [] => none
  | (k', v') :: rest => if k' = k then some v' else getAssoc k rest

/-- Read the Item object at heap address `a`. -/
def heapGet (h : List Item) (a : ℕ) : Item := h.getD a default

/-- models.py `Cart.find_item`, returning the heap ADDRESS of the first
item in the address list whose `item_id` matches. -/
def findItemAddr (h : List Item) : List ℕ → String → Option ℕ
  | [], _ => none
  | a :: rest, iid =>
      if (heapGet h a).item_id = iid then some a else findItemAddr h rest iid

/-- The Item values a list of heap addresses currently denotes (what
Python sees when it reads the objects). -/
def observe (h : List Item) (addrs : List ℕ) : List Item :=
  addrs.map (heapGet h)

/-- models.py `Cart.get_total`: sum of price × quantity over the cart's
items as currently on the heap. -/
def cartTotal (h : List Item) (addrs : List ℕ) : ℚ :=
  (addrs.map (fun a => (heapGet h a).price * ((heapGet h a).quantity : ℚ))).sum

/-- Python truthiness of an optional string: `None` and `""` are falsy.
This is the test `if discount_code:` in services.py and main_app.py. -/
def truthy : Option String → Bool
  | none => false
  | some s => s ≠ ""

/-- models.py `Cart.add_item` at time `now`: if an item with the same
`item_id` is already in the cart, increment THAT OBJECT's quantity on the
heap (the cart's address list is unchanged); otherwise allocate the new
item on the heap and append its address. Returns (new heap, new cart). -/
def Cart.add_item (h : List Item) (c : Cart) (it : Item) (now : ℚ) :
    List Item × Cart :=
  match findItemAddr h c.items it.item_id with
  | some a =>
      (h.set a { heapGet h a with quantity := (heapGet h a).quantity + it.quantity },
       { c with updated_at := now })
  | none =>
      (h ++ [it], { c with items := c.items ++ [h.length], updated_at := now })

/-- models.py `InMemoryStore` plus the fresh-identifier counters that
model uuid generation (see header comment). -/
structure Store where
  heap : List Item
  carts : List (String × Cart)
  orders : List Order
  discount_codes : List (String × DiscountCode)
  order_counter : ℕ
  next_order_id : ℕ
  next_code : ℕ
deriving DecidableEq, Repr

/-- A freshly constructed `InMemoryStore()`. -/
def emptyStore : Store := ⟨[], [], [], [], 0, 0, 0⟩

/-- main_app.py / config.py `DISCOUNT_ORDER_FREQUENCY` (default 3). -/
def DISCOUNT_ORDER_FREQUENCY : ℕ := 3

/-- services.py `DiscountService.discount_percentage` (fixed 10%). -/
def discountServicePercentage : ℚ := 10

/-- models.py `InMemoryStore.get_cart`: get the user's cart, creating and
PERSISTING an empty cart if the user has none. Returns the store as
mutated and the cart. -/
def InMemoryStore.get_cart (s : Store) (uid : String) (now : ℚ) :
    Store × Cart :=
  match getAssoc uid s.carts with
  | some c => (s, c)
  | none =>
      let c : Cart := ⟨uid, [], now, now⟩
      ({ s with carts := updAssoc uid c s.carts }, c)

/-- models.py `InMemoryStore.save_order`: append the order and increment
`order_counter`. The fresh-order-id counter advances with it. -/
def InMemoryStore.save_order (s : Store) (o : Order) : Store :=
  { s with orders := s.orders ++ [o], order_counter := s.order_counter + 1,
           next_order_id := s.next_order_id + 1 }

/-- Python `not user_id.strip()`: true iff the string consists entirely of
whitespace (stripping leaves the empty string, which is falsy). -/
def isBlank (s : String) : Bool := s.data.all Char.isWhitespace

/-- services.py `CartService.add_item_to_cart`. -/
def CartService.add_item_to_cart (s : Store) (uid : String) (it : Item)
    (now : ℚ) : Store × Except String Cart :=
  if isBlank uid then (s, .error "User ID cannot be empty")
  else
    let p := InMemoryStore.get_cart s uid now
    let q := Cart.add_item p.1.heap p.2 it now
    ({ p.1 with heap := q.1, carts := updAssoc uid q.2 p.1.carts }, .ok q.2)

/-- services.py `CartService.clear_cart`: empty the user's cart (creating
it first if absent) and bump `updated_at`. -/
def CartService.clear_cart (s : Store) (uid : String) (now : ℚ) : Store :=
  let p := InMemoryStore.get_cart s uid now
  { p.1 with carts := updAssoc uid ⟨uid, [], p.2.created_at, now⟩ p.1.carts }

/-- services.py `CartService.remove_item_from_cart`. Note that
`store.get_cart` runs FIRST and persists an empty cart for an unknown
user even when the call then fails. -/
def CartService.remove_item_from_cart (s : Store) (uid : String)
    (iid : String) (now : ℚ) : Store × Except String Cart :=
  let p := InMemoryStore.get_cart s uid now
  match findItemAddr p.1.heap p.2.items iid with
  | none => (p.1, .error ("Item " ++ iid ++ " not found in cart"))
  | some a =>
      let c : Cart := ⟨p.2.user_id, p.2.items.erase a, p.2.created_at, now⟩
      ({ p.1 with carts := updAssoc uid c p.1.carts }, .ok c)

/-- services.py `OrderService.create_order`.  The order's `items` field is
`cart.items.copy()`: a SHALLOW copy — the same list of object addresses,
referencing the same heap objects as the cart. -/
def OrderService.create_order (s : Store) (cart : Cart)
    (discount_code : Option String) (now : ℚ) : Store × Except String Order :=
  if cart.items.isEmpty then
    (s, .error "Cannot create order from empty cart")
  else
    let subtotal := cartTotal s.heap cart.items
    let damount? : Except String ℚ :=
      if truthy discount_code then
        match getAssoc (discount_code.getD "") s.discount_codes with
        | none => .error "Invalid or expired discount code"
        | some d =>
            if d.is_valid now then .ok (subtotal * (d.discount_percentage / 100))
            else .error "Invalid or expired discount code"
      else .ok 0
    match damount? with
    | .error e => (s, .error e)
    | .ok damount =>
        let o := Order.mk_post s.next_order_id cart.user_id cart.items
          subtotal discount_code damount (subtotal - damount) now
        (InMemoryStore.save_order s o, .ok o)

/-- services.py `DiscountService.is_discount_code_valid`. -/
def DiscountService.is_discount_code_valid (s : Store) (code : String)
    (now : ℚ) : Bool :=
  match getAssoc code s.discount_codes with
  | some d => d.is_valid now
  | none => false

/-- services.py `DiscountService.use_discount_code`. -/
def DiscountService.use_discount_code (s : Store) (code : String) (now : ℚ) :
    Store × Except String Unit :=
  match getAssoc code s.discount_codes with
  | none => (s, .error "Discount code not found")
  | some d =>
      if d.is_valid now then
        ({ s with discount_codes := updAssoc code (d.use now) s.discount_codes },
         .ok ())
      else (s, .error "Discount code is expired or already used")

/-- The code string `generate_discount_code` would mint next
(`"DISCOUNT" + fresh suffix`; uuid randomness modelled by the counter). -/
def freshCodeName (s : Store) : String := "DISCOUNT" ++ toString s.next_code

/-- services.py `DiscountService.generate_discount_code`: mint a fresh
10% code (unused, created now, default expiry) and save it. -/
def DiscountService.generate_discount_code (s : Store) (now : ℚ) :
    Store × DiscountCode :=
  let d := DiscountCode.mk_post (freshCodeName s) discountServicePercentage
    false now none none
  ({ s with discount_codes := updAssoc (freshCodeName s) d s.discount_codes,
            next_code := s.next_code + 1 }, d)

/-- models.py `InMemoryStore.get_unused_discount_codes`: all stored codes
that are currently `is_valid`. -/
def InMemoryStore.get_unused_discount_codes (s : Store) (now : ℚ) :
    List DiscountCode :=
  (s.discount_codes.map Prod.snd).filter (fun d => d.is_valid now)

/-- services.py `DiscountService.has_unused_discount_code`. -/
def DiscountService.has_unused_discount_code (s : Store) (now : ℚ) : Bool :=
  0 < (InMemoryStore.get_unused_discount_codes s now).length

/-- main_app.py `checkout` endpoint (after request-shape validation):
fetch-or-create cart, reject empty cart, validate any provided code,
create the order, consume the code, clear the cart, and mint a new code
when the live order count is a multiple of `DISCOUNT_ORDER_FREQUENCY`. -/
def checkout (s : Store) (uid : String) (dc : Option String) (now : ℚ) :
    Store × Except String Order :=
  match InMemoryStore.get_cart s uid now with
  | (s1, cart) =>
    if cart.items.isEmpty then (s1, .error "Cart is empty")
    else if truthy dc &&
        !(DiscountService.is_discount_code_valid s1 (dc.getD "") now) then
      (s1, .error "Invalid or expired discount code")
    else
      match OrderService.create_order s1 cart dc now with
      | (s2, .error e) => (s2, .error e)
      | (s2, .ok order) =>
          match (if truthy dc then
                   DiscountService.use_discount_code s2 (dc.getD "") now
                 else (s2, .ok ())) with
          | (s3, .error e) => (s3, .error e)
          | (s3, .ok _) =>
              let s4 := CartService.clear_cart s3 uid now
              (if s4.orders.length % DISCOUNT_ORDER_FREQUENCY = 0 then
                 (DiscountService.generate_discount_code s4 now).1
               else s4, .ok order)

/-- main_app.py `generate_discount_code` admin endpoint: refuse unless the
live order count is a multiple of the frequency AND no unused valid code
exists; otherwise mint one. -/
def adminGenerateDiscountCode (s : Store) (now : ℚ) :
    Store × Except String DiscountCode :=
  if s.orders.length % DISCOUNT_ORDER_FREQUENCY ≠ 0 then
    (s, .error "Discount code can only be generated every N orders")
  else if DiscountService.has_unused_discount_code s now then
    (s, .error "There is already an unused discount code available")
  else
    let p := DiscountService.generate_discount_code s now
    (p.1, .ok p.2)

/-- The invariant of claim C2: every stored order's total equals its
subtotal minus its discount amount. -/
def OrdersInv (s : Store) : Prop :=
  ∀ o ∈ s.orders, o.total_amount = o.subtotal - o.discount_amount

/-- Store states reachable from a fresh `InMemoryStore()` by the
operations of the repository (service calls and HTTP-endpoint bodies).
`createOrder` may be called with an arbitrary cart value, as any Python
caller could. -/
inductive Reachable : Store → Prop where
  | init : Reachable emptyStore
  | getCart (s : Store) (uid : String) (now : ℚ) :
      Reachable s → Reachable (InMemoryStore.get_cart s uid now).1
  | addItem (s : Store) (uid : String) (it : Item) (now : ℚ) :
      Reachable s → Reachable (CartService.add_item_to_cart s uid it now).1
  | clearCart (s : Store) (uid : String) (now : ℚ) :
      Reachable s → Reachable (CartService.clear_cart s uid now)
  | removeItem (s : Store) (uid iid : String) (now : ℚ) :
      Reachable s → Reachable (CartService.remove_item_from_cart s uid iid now).1
  | createOrder (s : Store) (cart : Cart) (dc : Option String) (now : ℚ) :
      Reachable s → Reachable (OrderService.create_order s cart dc now).1
  | useCode (s : Store) (code : String) (now : ℚ) :
      Reachable s → Reachable (DiscountService.use_discount_code s code now).1
  | genCode (s : Store) (now : ℚ) :
      Reachable s → Reachable (DiscountService.generate_discount_code s now).1
  | checkoutStep (s : Store) (uid : String) (dc : Option String) (now : ℚ) :
      Reachable s → Reachable (checkout s uid dc now).1
  | adminGen (s : Store) (now : ℚ) :
      Reachable s → Reachable (adminGenerateDiscountCode s now).1

/-- C1 scenario: a cart for user "u" holding one Apple (price 50, qty 1). -/
def c1Store1 : Store :=
  (CartService.add_item_to_cart emptyStore "u" ⟨"A", "Apple", 50, 1⟩ 0).1

/-- C1 scenario: the cart as fetched at checkout time. -/
def c1CartP : Store × Cart := InMemoryStore.get_cart c1Store1 "u" 1

/-- C1 scenario: the checkout-time `create_order` call. -/
def c1CO : Store × Except String Order :=
  OrderService.create_order c1CartP.1 c1CartP.2 none 1

/-- C1 scenario: the store after the LATER cart mutation — adding two more
Apples to the cart after the order was placed. -/
def c1Store3 : Store :=
  (CartService.add_item_to_cart c1CO.1 "u" ⟨"A", "Apple", 50, 2⟩ 2).1

/-- C3 counterexample scenario: a cart for "bob" with one Book, no
discount codes stored. -/
def c3Store : Store :=
  (CartService.add_item_to_cart emptyStore "bob" ⟨"B", "Book", 20, 1⟩ 0).1

/-- C3 counterexample scenario: bob's cart. -/
def c3Cart : Cart := (InMemoryStore.get_cart c3Store "bob" 0).2

/-- C5 scenario: one Widget (price 100, qty 1) in "u"'s cart and a stored,
unused, unexpired 10% code "SAVE10". -/
def c5Store : Store :=
  (CartService.add_item_to_cart
    { emptyStore with
        discount_codes :=
          [("SAVE10", DiscountCode.mk_post "SAVE10" 10 false 0 none none)] }
    "u" ⟨"I1", "Widget", 100, 1⟩ 0).1

/-- C5 scenario: the checkout call with code "SAVE10" at time 5. -/
def c5Result : Store × Except String Order := checkout c5Store "u" (some "SAVE10") 5

/-- C2 witness scenario: the store after adding an Apple to "u"'s cart and
checking out. -/
def c2wStore : Store :=
  (checkout (CartService.add_item_to_cart emptyStore "u" ⟨"A", "Apple", 50, 1⟩ 0).1
    "u" none 1).1

/-- C4 witness scenario: a store with two pre-existing orders, a pending
cart, an existing unused code, and an `order_counter` that disagrees with
the live order count (showing the trigger follows `len(orders)`). -/
def c4wStore : Store :=
  ⟨[⟨"A", "Apple", 50, 1⟩], [("u", ⟨"u", [0], 0, 0⟩)],
   [⟨1, "x", [], 5, none, 0, 5, 0⟩, ⟨2, "y", [], 6, none, 0, 6, 0⟩],
   [("OLD", DiscountCode.mk_post "OLD" 10 false 0 none none)], 99, 7, 0⟩

/-- C8 witness scenario: store with one Widget on the heap and a stored,
valid code "SAVE10". -/
def c8wStore : Store :=
  { emptyStore with
      heap := [⟨"W", "Widget", 30, 1⟩],
      discount_codes :=
        [("SAVE10", DiscountCode.mk_post "SAVE10" 10 false 0 none none)] }

/-- C8 witness scenario: a cart referencing the Widget. -/
def c8wCart : Cart := ⟨"u", [0], 0, 0⟩

theorem getAssoc_updAssoc_self {β : Type} (k : String) (v : β)
    (l : List (String × β)) : getAssoc k (updAssoc k v l) = some v := by
  induction l with
  | nil => simp [updAssoc, getAssoc]
  | cons hd tl ih =>
      by_cases hk : hd.1 = k
      · simp [updAssoc, getAssoc, hk]
      · simp [updAssoc, getAssoc, hk, ih]

theorem getAssoc_updAssoc_ne {β : Type} {k k' : String} (v : β)
    (l : List (String × β)) (hne : k' ≠ k) :
    getAssoc k' (updAssoc k v l) = getAssoc k' l := by
  induction l with
  | nil => simp [updAssoc, getAssoc, Ne.symm hne]
  | cons hd tl ih =>
      by_cases hk : hd.1 = k
      · subst hk
        by_cases hk' : hd.1 = k'
        · exact absurd hk'.symm hne
        · simp [updAssoc, getAssoc, hk', Ne.symm hne]
      · by_cases hk' : hd.1 = k'
        · simp [updAssoc, getAssoc, hk, hk', hne]
        · simp [updAssoc, getAssoc, hk, hk', ih]

theorem updAssoc_of_not_mem {β : Type} {k : String} (v : β)
    {l : List (String × β)} (h : getAssoc k l = none) :
    updAssoc k v l = l ++ [(k, v)] := by
  induction l with
  | nil => simp [updAssoc]
  | cons hd tl ih =>
      by_cases hk : hd.1 = k
      · simp [getAssoc, hk] at h
      · simp [getAssoc, hk] at h
        simp [updAssoc, hk, ih h]

theorem updAssoc_length_of_mem {β : Type} {k : String} (v : β)
    {l : List (String × β)} {w : β} (h : getAssoc k l = some w) :
    (updAssoc k v l).length = l.length := by
  induction l with
  | nil => simp [getAssoc] at h
  | cons hd tl ih =>
      by_cases hk : hd.1 = k
      · simp [updAssoc, hk]
      · simp [getAssoc, hk] at h
        simp [updAssoc, hk, ih h]

theorem get_cart_fields (s : Store) (uid : String) (now : ℚ) :
    (InMemoryStore.get_cart s uid now).1.orders = s.orders ∧
    (InMemoryStore.get_cart s uid now).1.discount_codes = s.discount_codes ∧
    (InMemoryStore.get_cart s uid now).1.next_code = s.next_code ∧
    (InMemoryStore.get_cart s uid now).1.heap = s.heap := by
  unfold InMemoryStore.get_cart
  cases h : getAssoc uid s.carts <;> simp [h]

theorem create_order_ok_decomp (s : Store) (cart : Cart) (dc : Option String)
    (now : ℚ) (s' : Store) (o : Order)
    (h : OrderService.create_order s cart dc now = (s', .ok o)) :
    s' = InMemoryStore.save_order s o ∧ o.items = cart.items ∧
    o.total_amount = o.subtotal - o.discount_amount ∧
    o.discount_code = dc := by
  unfold OrderService.create_order at h
  by_cases he : cart.items.isEmpty
  · simp [he] at h
  · simp only [if_neg he] at h
    by_cases ht : truthy dc = true
    · cases hg : getAssoc (dc.getD "") s.discount_codes with
      | none => simp [ht, hg] at h
      | some d =>
          by_cases hv : d.is_valid now = true
          · simp [ht, hg, hv] at h
            obtain ⟨h1, h2⟩ := h
            subst h1; subst h2
            refine ⟨rfl, rfl, ?_, rfl⟩
            simp [Order.mk_post]
          · simp [ht, hg, hv] at h
    · simp [ht] at h
      obtain ⟨h1, h2⟩ := h
      subst h1; subst h2
      refine ⟨rfl, rfl, ?_, rfl⟩
      simp [Order.mk_post]

theorem create_order_err_store (s : Store) (cart : Cart) (dc : Option String)
    (now : ℚ) (e : String)
    (h : (OrderService.create_order s cart dc now).2 = .error e) :
    (OrderService.create_order s cart dc now).1 = s := by
  unfold OrderService.create_order at h ⊢
  by_cases he : cart.items.isEmpty
  · simp [he]
  · simp only [if_neg he] at h ⊢
    by_cases ht : truthy dc = true
    · cases hg : getAssoc (dc.getD "") s.discount_codes with
      | none => simp [ht, hg]
      | some d =>
          by_cases hv : d.is_valid now = true
          · simp [ht, hg, hv] at h
          · simp [ht, hg, hv]
    · simp [ht] at h

theorem create_order_codes (s : Store) (cart : Cart) (dc : Option String)
    (now : ℚ) :
    (OrderService.create_order s cart dc now).1.discount_codes =
      s.discount_codes := by
  unfold OrderService.create_order
  by_cases he : cart.items.isEmpty
  · simp [he]
  · simp only [if_neg he]
    by_cases ht : truthy dc = true
    · cases hg : getAssoc (dc.getD "") s.discount_codes with
      | none => simp [ht, hg]
      | some d =>
          by_cases hv : d.is_valid now = true
          · simp [ht, hg, hv, InMemoryStore.save_order]
          · simp [ht, hg, hv]
    · simp [ht, InMemoryStore.save_order]

theorem create_order_err_iff (s : Store) (cart : Cart) (dc : Option String)
    (now : ℚ) :
    (∃ e, (OrderService.create_order s cart dc now).2 = .error e) ↔
      (cart.items = [] ∨ (truthy dc = true ∧
        (getAssoc (dc.getD "") s.discount_codes = none ∨
         ∃ d, getAssoc (dc.getD "") s.discount_codes = some d ∧
           d.is_valid now = false))) := by
  unfold OrderService.create_order
  by_cases he : cart.items.isEmpty
  · simp [he, List.isEmpty_iff.mp he]
  · have he' : cart.items ≠ [] := by simpa [List.isEmpty_iff] using he
    simp only [if_neg he]
    by_cases ht : truthy dc = true
    · cases hg : getAssoc (dc.getD "") s.discount_codes with
      | none => simp [ht, hg, he']
      | some d =>
          by_cases hv : d.is_valid now = true
          · simp [ht, hg, hv, he']
          · simp [ht, hg, hv, he']
    · simp [ht, he']

theorem use_code_ok_decomp (s : Store) (code : String) (now : ℚ) (s' : Store)
    (h : DiscountService.use_discount_code s code now = (s', .ok ())) :
    ∃ d, getAssoc code s.discount_codes = some d ∧ d.is_valid now = true ∧
      s' = { s with discount_codes := updAssoc code (d.use now) s.discount_codes } := by
  unfold DiscountService.use_discount_code at h
  cases hg : getAssoc code s.discount_codes with
  | none => simp [hg] at h
  | some d =>
      by_cases hv : d.is_valid now = true
      · simp [hg, hv] at h
        exact ⟨d, rfl, hv, h.symm⟩
      · simp [hg, hv] at h

theorem use_code_err_store (s : Store) (code : String) (now : ℚ) (s' : Store)
    (e : String)
    (h : DiscountService.use_discount_code s code now = (s', .error e)) :
    s' = s := by
  unfold DiscountService.use_discount_code at h
  cases hg : getAssoc code s.discount_codes with
  | none => simp [hg] at h; exact h.1.symm
  | some d =>
      by_cases hv : d.is_valid now = true
      · simp [hg, hv] at h
      · simp [hg, hv] at h; exact h.1.symm

theorem clear_cart_fields (s : Store) (uid : String) (now : ℚ) :
    (CartService.clear_cart s uid now).orders = s.orders ∧
    (CartService.clear_cart s uid now).discount_codes = s.discount_codes ∧
    (CartService.clear_cart s uid now).next_code = s.next_code := by
  unfold CartService.clear_cart InMemoryStore.get_cart
  cases h : getAssoc uid s.carts <;> simp [h]

theorem add_item_fields (s : Store) (uid : String) (it : Item) (now : ℚ) :
    (CartService.add_item_to_cart s uid it now).1.orders = s.orders ∧
    (CartService.add_item_to_cart s uid it now).1.discount_codes =
      s.discount_codes := by
  unfold CartService.add_item_to_cart InMemoryStore.get_cart
  by_cases hu : isBlank uid = true
  · simp [hu]
  · cases h : getAssoc uid s.carts <;> simp [hu, h]

theorem remove_item_fields (s : Store) (uid iid : String) (now : ℚ) :
    (CartService.remove_item_from_cart s uid iid now).1.orders = s.orders ∧
    (CartService.remove_item_from_cart s uid iid now).1.discount_codes =
      s.discount_codes := by
  unfold CartService.remove_item_from_cart InMemoryStore.get_cart
  cases h : getAssoc uid s.carts <;> simp [h] <;> split <;> simp

theorem gen_code_fields (s : Store) (now : ℚ) :
    (DiscountService.generate_discount_code s now).1.orders = s.orders ∧
    (DiscountService.generate_discount_code s now).1.discount_codes =
      updAssoc (freshCodeName s)
        (DiscountCode.mk_post (freshCodeName s) discountServicePercentage
          false now none none) s.discount_codes := by
  constructor <;> rfl

theorem save_order_fields (s : Store) (o : Order) :
    (InMemoryStore.save_order s o).orders = s.orders ++ [o] ∧
    (InMemoryStore.save_order s o).discount_codes = s.discount_codes ∧
    (InMemoryStore.save_order s o).next_code = s.next_code :=
  ⟨rfl, rfl, rfl⟩

theorem use_code_of_valid (s : Store) (c : String) (now : ℚ)
    (h : DiscountService.is_discount_code_valid s c now = true) :
    ∃ d, getAssoc c s.discount_codes = some d ∧ d.is_valid now = true ∧
      DiscountService.use_discount_code s c now =
        ({ s with discount_codes := updAssoc c (d.use now) s.discount_codes },
         .ok ()) := by
  unfold DiscountService.is_discount_code_valid at h
  cases hg : getAssoc c s.discount_codes with
  | none => rw [hg] at h; simp at h
  | some d =>
      rw [hg] at h
      simp at h
      exact ⟨d, rfl, h, by
        unfold DiscountService.use_discount_code
        rw [hg]
        simp [h]⟩

theorem is_valid_congr (s s' : Store) (c : String) (now : ℚ)
    (h : s'.discount_codes = s.discount_codes) :
    DiscountService.is_discount_code_valid s' c now =
      DiscountService.is_discount_code_valid s c now := by
  unfold DiscountService.is_discount_code_valid
  rw [h]

theorem checkout_ok_decomp (s : Store) (uid : String) (dc : Option String)
    (now : ℚ) (s' : Store) (order : Order)
    (h : checkout s uid dc now = (s', .ok order)) :
    ∃ codes3 : List (String × DiscountCode),
      s'.orders = s.orders ++ [order] ∧
      order.total_amount = order.subtotal - order.discount_amount ∧
      ((truthy dc = false ∧ codes3 = s.discount_codes) ∨
       (truthy dc = true ∧ ∃ d,
          getAssoc (dc.getD "") s.discount_codes = some d ∧
          d.is_valid now = true ∧
          codes3 = updAssoc (dc.getD "") (d.use now) s.discount_codes)) ∧
      s'.discount_codes =
        (if (s.orders.length + 1) % DISCOUNT_ORDER_FREQUENCY = 0 then
           updAssoc (freshCodeName s)
             (DiscountCode.mk_post (freshCodeName s) discountServicePercentage
               false now none none) codes3
         else codes3) := by
  unfold checkout at h
  cases hp : InMemoryStore.get_cart s uid now with
  | mk s1 cart =>
    rw [hp] at h
    dsimp only at h
    obtain ⟨ho1, hc1, hn1, hh1⟩ := get_cart_fields s uid now
    simp only [hp] at ho1 hc1 hn1 hh1
    by_cases he : cart.items.isEmpty = true
    · simp [he] at h
    · rw [if_neg he] at h
      by_cases hg : (truthy dc &&
          !(DiscountService.is_discount_code_valid s1 (dc.getD "") now)) = true
      · rw [if_pos hg] at h
        simp at h
      · rw [if_neg hg] at h
        cases hco : OrderService.create_order s1 cart dc now with
        | mk s2 r2 =>
          rw [hco] at h
          cases r2 with
          | error e => simp at h
          | ok o =>
            obtain ⟨hs2, hoi, htot, hodc⟩ :=
              create_order_ok_decomp s1 cart dc now s2 o hco
            subst hs2
            dsimp only at h
            by_cases ht : truthy dc = true
            · rw [if_pos ht] at h
              have hgv : DiscountService.is_discount_code_valid s1
                  (dc.getD "") now = true := by
                simp [ht] at hg
                exact hg
              have hgv2 : DiscountService.is_discount_code_valid
                  (InMemoryStore.save_order s1 o) (dc.getD "") now = true :=
                (is_valid_congr s1 (InMemoryStore.save_order s1 o)
                  (dc.getD "") now rfl).trans hgv
              obtain ⟨d, hd, hdv, hueq⟩ :=
                use_code_of_valid (InMemoryStore.save_order s1 o)
                  (dc.getD "") now hgv2
              rw [hueq] at h
              simp only [Prod.mk.injEq] at h
              obtain ⟨h1, h2⟩ := h
              have h2' : o = order := by
                exact Except.ok.inj h2
              subst h2'
              refine ⟨updAssoc (dc.getD "") (d.use now) s.discount_codes,
                ?_, htot, Or.inr ⟨ht, d, ?_, hdv, rfl⟩, ?_⟩
              · rw [← h1]
                by_cases hq : (CartService.clear_cart
                    { InMemoryStore.save_order s1 o with
                      discount_codes := updAssoc (dc.getD "") (d.use now)
                        (InMemoryStore.save_order s1 o).discount_codes }
                    uid now).orders.length % DISCOUNT_ORDER_FREQUENCY = 0
                · rw [if_pos hq]
                  rw [(gen_code_fields _ now).1]
                  rw [(clear_cart_fields _ uid now).1]
                  simp [InMemoryStore.save_order, ho1]
                · rw [if_neg hq]
                  rw [(clear_cart_fields _ uid now).1]
                  simp [InMemoryStore.save_order, ho1]
              · rw [← hc1]
                exact hd
              · rw [← h1]
                have hlen : (CartService.clear_cart
                    { InMemoryStore.save_order s1 o with
                      discount_codes := updAssoc (dc.getD "") (d.use now)
                        (InMemoryStore.save_order s1 o).discount_codes }
                    uid now).orders.length = s.orders.length + 1 := by
                  rw [(clear_cart_fields _ uid now).1]
                  simp [InMemoryStore.save_order, ho1]
                have hcode3 : (CartService.clear_cart
                    { InMemoryStore.save_order s1 o with
                      discount_codes := updAssoc (dc.getD "") (d.use now)
                        (InMemoryStore.save_order s1 o).discount_codes }
                    uid now).discount_codes =
                    updAssoc (dc.getD "") (d.use now) s.discount_codes := by
                  rw [(clear_cart_fields _ uid now).2.1]
                  simp [InMemoryStore.save_order, hc1]
                have hfresh : freshCodeName (CartService.clear_cart
                    { InMemoryStore.save_order s1 o with
                      discount_codes := updAssoc (dc.getD "") (d.use now)
                        (InMemoryStore.save_order s1 o).discount_codes }
                    uid now) = freshCodeName s := by
                  unfold freshCodeName
                  rw [(clear_cart_fields _ uid now).2.2]
                  simp [InMemoryStore.save_order, hn1]
                by_cases hq : (s.orders.length + 1) % DISCOUNT_ORDER_FREQUENCY = 0
                · rw [if_pos (by rw [hlen]; exact hq), if_pos hq]
                  rw [(gen_code_fields _ now).2, hfresh, hcode3]
                · rw [if_neg (by rw [hlen]; exact hq), if_neg hq]
                  exact hcode3
            · rw [if_neg ht] at h
              simp only [Prod.mk.injEq] at h
              obtain ⟨h1, h2⟩ := h
              have h2' : o = order := Except.ok.inj h2
              subst h2'
              refine ⟨s.discount_codes, ?_, htot,
                Or.inl ⟨by simpa using ht, rfl⟩, ?_⟩
              · rw [← h1]
                by_cases hq : (CartService.clear_cart
                    (InMemoryStore.save_order s1 o) uid now).orders.length %
                    DISCOUNT_ORDER_FREQUENCY = 0
                · rw [if_pos hq]
                  rw [(gen_code_fields _ now).1]
                  rw [(clear_cart_fields _ uid now).1]
                  simp [InMemoryStore.save_order, ho1]
                · rw [if_neg hq]
                  rw [(clear_cart_fields _ uid now).1]
                  simp [InMemoryStore.save_order, ho1]
              · rw [← h1]
                have hlen : (CartService.clear_cart
                    (InMemoryStore.save_order s1 o) uid now).orders.length =
                    s.orders.length + 1 := by
                  rw [(clear_cart_fields _ uid now).1]
                  simp [InMemoryStore.save_order, ho1]
                have hcode3 : (CartService.clear_cart
                    (InMemoryStore.save_order s1 o) uid now).discount_codes =
                    s.discount_codes := by
                  rw [(clear_cart_fields _ uid now).2.1]
                  simp [InMemoryStore.save_order, hc1]
                have hfresh : freshCodeName (CartService.clear_cart
                    (InMemoryStore.save_order s1 o) uid now) =
                    freshCodeName s := by
                  unfold freshCodeName
                  rw [(clear_cart_fields _ uid now).2.2]
                  simp [InMemoryStore.save_order, hn1]
                by_cases hq : (s.orders.length + 1) % DISCOUNT_ORDER_FREQUENCY = 0
                · rw [if_pos (by rw [hlen]; exact hq), if_pos hq]
                  rw [(gen_code_fields _ now).2, hfresh, hcode3]
                · rw [if_neg (by rw [hlen]; exact hq), if_neg hq]
                  exact hcode3

theorem checkout_err_fields (s : Store) (uid : String) (dc : Option String)
    (now : ℚ) (s' : Store) (e : String)
    (h : checkout s uid dc now = (s', .error e)) :
    s'.orders = s.orders ∧ s'.discount_codes = s.discount_codes := by
  unfold checkout at h
  cases hp : InMemoryStore.get_cart s uid now with
  | mk s1 cart =>
    rw [hp] at h
    dsimp only at h
    obtain ⟨ho1, hc1, hn1, hh1⟩ := get_cart_fields s uid now
    simp only [hp] at ho1 hc1 hn1 hh1
    by_cases he : cart.items.isEmpty = true
    · rw [if_pos he] at h
      simp only [Prod.mk.injEq] at h
      rw [← h.1]
      exact ⟨ho1, hc1⟩
    · rw [if_neg he] at h
      by_cases hg : (truthy dc &&
          !(DiscountService.is_discount_code_valid s1 (dc.getD "") now)) = true
      · rw [if_pos hg] at h
        simp only [Prod.mk.injEq] at h
        rw [← h.1]
        exact ⟨ho1, hc1⟩
      · rw [if_neg hg] at h
        cases hco : OrderService.create_order s1 cart dc now with
        | mk s2 r2 =>
          rw [hco] at h
          cases r2 with
          | error e2 =>
              dsimp only at h
              simp only [Prod.mk.injEq] at h
              have hst : s2 = s1 := by
                have h1 := create_order_err_store s1 cart dc now e2 (by rw [hco])
                rw [hco] at h1
                exact h1
              rw [← h.1, hst]
              exact ⟨ho1, hc1⟩
          | ok o =>
              obtain ⟨hs2, hoi, htot, hodc⟩ :=
                create_order_ok_decomp s1 cart dc now s2 o hco
              subst hs2
              dsimp only at h
              by_cases ht : truthy dc = true
              · rw [if_pos ht] at h
                have hgv : DiscountService.is_discount_code_valid s1
                    (dc.getD "") now = true := by
                  simp [ht] at hg
                  exact hg
                have hgv2 : DiscountService.is_discount_code_valid
                    (InMemoryStore.save_order s1 o) (dc.getD "") now = true :=
                  (is_valid_congr s1 (InMemoryStore.save_order s1 o)
                    (dc.getD "") now rfl).trans hgv
                obtain ⟨d, hd, hdv, hueq⟩ :=
                  use_code_of_valid (InMemoryStore.save_order s1 o)
                    (dc.getD "") now hgv2
                rw [hueq] at h
                simp at h
              · rw [if_neg ht] at h
                simp at h

theorem use_code_orders (s : Store) (code : String) (now : ℚ) :
    (DiscountService.use_discount_code s code now).1.orders = s.orders := by
  cases hg : getAssoc code s.discount_codes with
  | none => simp [DiscountService.use_discount_code, hg]
  | some d =>
      by_cases hv : d.is_valid now = true <;>
        simp [DiscountService.use_discount_code, hg, hv]

theorem admin_gen_orders (s : Store) (now : ℚ) :
    (adminGenerateDiscountCode s now).1.orders = s.orders := by
  unfold adminGenerateDiscountCode
  split
  · rfl
  · split
    · rfl
    · exact (gen_code_fields s now).1

theorem create_order_ordersInv (s : Store) (cart : Cart) (dc : Option String)
    (now : ℚ) (h : OrdersInv s) :
    OrdersInv (OrderService.create_order s cart dc now).1 := by
  cases hco : OrderService.create_order s cart dc now with
  | mk s2 r2 =>
    cases r2 with
    | error e =>
        have h0 : s2 = s := by
          have h1 := create_order_err_store s cart dc now e (by rw [hco])
          rw [hco] at h1
          exact h1
        intro o' ho'
        have ho'' : o' ∈ s.orders := by rw [← h0]; exact ho'
        exact h o' ho''
    | ok o =>
        obtain ⟨hs2, _, htot, _⟩ := create_order_ok_decomp s cart dc now s2 o hco
        subst hs2
        intro o' ho'
        have ho'' : o' ∈ s.orders ++ [o] := ho'
        rcases List.mem_append.mp ho'' with hmem | hmem
        · exact h o' hmem
        · rw [List.mem_singleton.mp hmem]
          exact htot

theorem checkout_ordersInv (s : Store) (uid : String) (dc : Option String)
    (now : ℚ) (h : OrdersInv s) :
    OrdersInv (checkout s uid dc now).1 := by
  cases hck : checkout s uid dc now with
  | mk s' r =>
    cases r with
    | error e =>
        obtain ⟨ho, _⟩ := checkout_err_fields s uid dc now s' e hck
        intro o' ho'
        have ho'' : o' ∈ s.orders := by
          have : o' ∈ s'.orders := ho'
          rwa [ho] at this
        exact h o' ho''
    | ok o =>
        obtain ⟨codes3, ho, htot, _, _⟩ :=
          checkout_ok_decomp s uid dc now s' o hck
        intro o' ho'
        have ho'' : o' ∈ s.orders ++ [o] := by
          have : o' ∈ s'.orders := ho'
          rwa [ho] at this
        rcases List.mem_append.mp ho'' with hmem | hmem
        · exact h o' hmem
        · rw [List.mem_singleton.mp hmem]
          exact htot

theorem reachable_ordersInv (s : Store) (hs : Reachable s) : OrdersInv s := by
  induction hs with
  | init =>
      intro o ho
      simp [emptyStore] at ho
  | getCart s uid now hr ih =>
      intro o ho
      rw [(get_cart_fields s uid now).1] at ho
      exact ih o ho
  | addItem s uid it now hr ih =>
      intro o ho
      rw [(add_item_fields s uid it now).1] at ho
      exact ih o ho
  | clearCart s uid now hr ih =>
      intro o ho
      rw [(clear_cart_fields s uid now).1] at ho
      exact ih o ho
  | removeItem s uid iid now hr ih =>
      intro o ho
      rw [(remove_item_fields s uid iid now).1] at ho
      exact ih o ho
  | createOrder s cart dc now hr ih =>
      exact create_order_ordersInv s cart dc now ih
  | useCode s code now hr ih =>
      intro o ho
      rw [use_code_orders s code now] at ho
      exact ih o ho
  | genCode s now hr ih =>
      intro o ho
      rw [(gen_code_fields s now).1] at ho
      exact ih o ho
  | checkoutStep s uid dc now hr ih =>
      exact checkout_ordersInv s uid dc now ih
  | adminGen s now hr ih =>
      intro o ho
      rw [admin_gen_orders s now] at ho
      exact ih o ho

theorem mk_fresh_valid (c : String) (now : ℚ) :
    (DiscountCode.mk_post c discountServicePercentage false now none none).is_used
       = false ∧
    (DiscountCode.mk_post c discountServicePercentage false now none none).is_valid
       now = true := by
  constructor
  · rfl
  · have hle : now ≤ now + timedelta_days 30 := by
      unfold timedelta_days
      linarith
    simp [DiscountCode.mk_post, DiscountCode.is_valid, not_lt.mpr hle]

theorem checkout_gen_codes (s : Store) (uid : String) (dc : Option String)
    (now : ℚ) (order : Order)
    (h : (checkout s uid dc now).2 = .ok order)
    (hfresh : getAssoc (freshCodeName s) s.discount_codes = none) :
    (checkout s uid dc now).1.orders.length = s.orders.length + 1 ∧
    ((s.orders.length + 1) % DISCOUNT_ORDER_FREQUENCY = 0 →
       (checkout s uid dc now).1.discount_codes.length =
         s.discount_codes.length + 1 ∧
       getAssoc (freshCodeName s) (checkout s uid dc now).1.discount_codes =
         some (DiscountCode.mk_post (freshCodeName s) discountServicePercentage
           false now none none)) ∧
    ((s.orders.length + 1) % DISCOUNT_ORDER_FREQUENCY ≠ 0 →
       (checkout s uid dc now).1.discount_codes.length =
         s.discount_codes.length) := by
  have hck : checkout s uid dc now = ((checkout s uid dc now).1, .ok order) :=
    Prod.ext_iff.mpr ⟨rfl, h⟩
  obtain ⟨codes3, ho, htot, hc3, hcodes⟩ :=
    checkout_ok_decomp s uid dc now (checkout s uid dc now).1 order hck
  have hlen : (checkout s uid dc now).1.orders.length = s.orders.length + 1 := by
    rw [ho]
    simp
  have hlen3 : codes3.length = s.discount_codes.length := by
    rcases hc3 with ⟨_, rfl⟩ | ⟨_, d, hd, _, rfl⟩
    · rfl
    · exact updAssoc_length_of_mem _ hd
  have hfresh3 : getAssoc (freshCodeName s) codes3 = none := by
    rcases hc3 with ⟨_, rfl⟩ | ⟨_, d, hd, _, rfl⟩
    · exact hfresh
    · have hne : freshCodeName s ≠ dc.getD "" := by
        intro hq
        rw [← hq] at hd
        rw [hfresh] at hd
        exact Option.noConfusion hd
      rw [getAssoc_updAssoc_ne _ _ hne]
      exact hfresh
  refine ⟨hlen, ?_, ?_⟩
  · intro htrig
    rw [if_pos htrig] at hcodes
    constructor
    · rw [hcodes, updAssoc_of_not_mem _ hfresh3]
      simp [hlen3]
    · rw [hcodes]
      exact getAssoc_updAssoc_self _ _ _
  · intro htrig
    rw [if_neg htrig] at hcodes
    rw [hcodes, hlen3]

/-- C1 (refuted on the code): `create_order` stores `cart.items.copy()`,
a SHALLOW copy — the same Item object references as the cart.  A later
`Cart.add_item` with an item_id that was in the cart at checkout mutates
the shared Item object in place, so the placed order's observed items
change: the order's single line item reads quantity 1 (subtotal 50) at
checkout time but quantity 3 (subtotal 150) after the later addition,
contradicting the value-copy-snapshot claim. -/
theorem c1_snapshot_violated :
    ∃ o : Order, c1CO.2 = .ok o ∧
      observe c1CO.1.heap o.items = [⟨"A", "Apple", 50, 1⟩] ∧
      observe c1Store3.heap o.items = [⟨"A", "Apple", 50, 3⟩] ∧
      observe c1Store3.heap o.items ≠ observe c1CO.1.heap o.items := by
  refine ⟨⟨0, "u", [0], 50, none, 0, 50, 1⟩, ?_, ?_, ?_, ?_⟩ <;>
    norm_num [c1Store3, c1CO, c1CartP, c1Store1, CartService.add_item_to_cart,
      InMemoryStore.get_cart, emptyStore,
      show isBlank "u" = false from by decide,
      Cart.add_item, findItemAddr, getAssoc, updAssoc,
      OrderService.create_order, cartTotal, heapGet, truthy,
      InMemoryStore.save_order, Order.mk_post, observe]

/-- C2: in every store reachable by the repository's operations, every
stored order satisfies total_amount = subtotal - discount_amount; the
equality is fixed at creation inside `create_order` and no operation
rewrites a stored order. -/
theorem c2_order_total_invariant (s : Store) (hs : Reachable s) (o : Order)
    (ho : o ∈ s.orders) : o.total_amount = o.subtotal - o.discount_amount :=
  reachable_ordersInv s hs o ho

/-- C2 witness: the invariant read off a concrete reachable store holding
one checked-out order. -/
theorem c2_order_total_invariant_witness :
    (⟨0, "u", [0], 50, none, 0, 50, 1⟩ : Order).total_amount =
      (⟨0, "u", [0], 50, none, 0, 50, 1⟩ : Order).subtotal -
      (⟨0, "u", [0], 50, none, 0, 50, 1⟩ : Order).discount_amount :=
  c2_order_total_invariant c2wStore
    (Reachable.checkoutStep _ "u" none 1
      (Reachable.addItem _ "u" ⟨"A", "Apple", 50, 1⟩ 0 Reachable.init))
    ⟨0, "u", [0], 50, none, 0, 50, 1⟩
    (by
      norm_num [c2wStore, checkout, CartService.add_item_to_cart,
        InMemoryStore.get_cart, emptyStore,
        show isBlank "u" = false from by decide,
        Cart.add_item, findItemAddr, getAssoc, updAssoc,
        OrderService.create_order, cartTotal, heapGet, truthy,
        InMemoryStore.save_order, Order.mk_post, CartService.clear_cart,
        DISCOUNT_ORDER_FREQUENCY, DiscountService.generate_discount_code,
        freshCodeName, DiscountCode.mk_post])

/-- C3 counterexample: with a non-empty cart and discount_code = some ""
(a code that is given and absent from the store), `create_order`
SUCCEEDS, because Python's `if discount_code:` treats the empty string as
falsy; so the operation does not fail for every given-and-absent code as
the claim states. -/
theorem c3_counterexample :
    c3Cart.items ≠ [] ∧
    getAssoc "" c3Store.discount_codes = none ∧
    (OrderService.create_order c3Store c3Cart (some "") 0).2 =
      .ok ⟨0, "bob", [0], 20, some "", 0, 20, 0⟩ := by
  refine ⟨?_, ?_, ?_⟩ <;>
    norm_num [c3Store, c3Cart, CartService.add_item_to_cart,
      InMemoryStore.get_cart, emptyStore,
      show isBlank "bob" = false from by decide,
      Cart.add_item, findItemAddr, getAssoc, updAssoc,
      OrderService.create_order, cartTotal, heapGet, truthy,
      InMemoryStore.save_order, Order.mk_post]

/-- C3 (amended): `create_order` fails exactly when the cart is empty, or
when a NON-EMPTY discount code is given that is absent from the store or
not valid (an empty-string code is treated by Python truthiness as no
code at all); and every failing call leaves the store exactly as it was —
no order added, no cart touched, no discount code modified. -/
theorem c3_create_order_failure_spec (s : Store) (cart : Cart)
    (dc : Option String) (now : ℚ) :
    ((∃ e, (OrderService.create_order s cart dc now).2 = .error e) ↔
      (cart.items = [] ∨
        ∃ c, dc = some c ∧ c ≠ "" ∧
          (getAssoc c s.discount_codes = none ∨
           ∃ d, getAssoc c s.discount_codes = some d ∧
             d.is_valid now = false))) ∧
    (∀ e, (OrderService.create_order s cart dc now).2 = .error e →
       (OrderService.create_order s cart dc now).1 = s) := by
  constructor
  · rw [create_order_err_iff]
    constructor
    · rintro (h | ⟨ht, hrest⟩)
      · exact Or.inl h
      · right
        cases dc with
        | none => simp [truthy] at ht
        | some c =>
            have hc : c ≠ "" := by simpa [truthy] using ht
            exact ⟨c, rfl, hc, by simpa using hrest⟩
    · rintro (h | ⟨c, rfl, hc, hrest⟩)
      · exact Or.inl h
      · right
        exact ⟨by simpa [truthy] using hc, by simpa using hrest⟩
  · intro e he
    exact create_order_err_store s cart dc now e he

/-- C3 witness: the amended characterization instantiated on an empty
cart, where create_order does fail. -/
theorem c3_create_order_failure_spec_witness :
    ∃ e, (OrderService.create_order emptyStore ⟨"u", [], 0, 0⟩ none 0).2 =
      .error e :=
  (c3_create_order_failure_spec emptyStore ⟨"u", [], 0, 0⟩ none 0).1.mpr
    (Or.inl rfl)

/-- C5: checking out a cart holding one item with price 100 and quantity 1
against the stored, valid 10% code "SAVE10" yields an order with
discount_amount 10 (= 100 × 10/100) and total_amount 90, and afterwards
the code is marked used (used_at set) and is no longer valid. -/
theorem c5_checkout_with_discount :
    c5Result.2 = .ok ⟨0, "u", [0], 100, some "SAVE10", 10, 90, 5⟩ ∧
    (∃ d, getAssoc "SAVE10" c5Result.1.discount_codes = some d ∧
       d.is_used = true ∧ d.used_at = some 5 ∧ d.is_valid 5 = false) ∧
    DiscountService.is_discount_code_valid c5Result.1 "SAVE10" 5 = false := by
  refine ⟨?_, ⟨⟨"SAVE10", 10, true, 0, some 5, some 2592000⟩, ?_, ?_, ?_, ?_⟩,
    ?_⟩ <;>
    norm_num [c5Result, c5Store, checkout, CartService.add_item_to_cart,
      InMemoryStore.get_cart, emptyStore,
      show isBlank "u" = false from by decide,
      show ("SAVE10" : String) ≠ "" from by decide,
      Cart.add_item, findItemAddr, getAssoc, updAssoc,
      OrderService.create_order, cartTotal, heapGet, truthy,
      InMemoryStore.save_order, Order.mk_post, CartService.clear_cart,
      DISCOUNT_ORDER_FREQUENCY, DiscountService.generate_discount_code,
      freshCodeName, DiscountCode.mk_post, DiscountCode.is_valid,
      DiscountCode.use, DiscountService.is_discount_code_valid,
      DiscountService.use_discount_code, timedelta_days]

/-- C4: every successful checkout appends exactly one order; if the
resulting live order count (len of the orders map) is a multiple of
DISCOUNT_ORDER_FREQUENCY then exactly one fresh, unused, currently-valid
discount code has been generated and stored by that checkout — no check
for pre-existing unused codes is made — and otherwise the stored codes do
not grow.  The trigger is the live order count; the theorem holds for
stores whose `order_counter` field is arbitrary and never constrains it. -/
theorem c4_auto_generation (s : Store) (uid : String) (dc : Option String)
    (now : ℚ) (order : Order)
    (h : (checkout s uid dc now).2 = .ok order)
    (hfresh : getAssoc (freshCodeName s) s.discount_codes = none) :
    (checkout s uid dc now).1.orders.length = s.orders.length + 1 ∧
    ((checkout s uid dc now).1.orders.length % DISCOUNT_ORDER_FREQUENCY = 0 →
       (checkout s uid dc now).1.discount_codes.length =
         s.discount_codes.length + 1 ∧
       ∃ d, getAssoc (freshCodeName s)
           (checkout s uid dc now).1.discount_codes = some d ∧
         d.is_used = false ∧ d.is_valid now = true) ∧
    ((checkout s uid dc now).1.orders.length % DISCOUNT_ORDER_FREQUENCY ≠ 0 →
       (checkout s uid dc now).1.discount_codes.length =
         s.discount_codes.length) := by
  obtain ⟨hlen, hgen, hnogen⟩ := checkout_gen_codes s uid dc now order h hfresh
  refine ⟨hlen, ?_, ?_⟩
  · intro htrig
    rw [hlen] at htrig
    obtain ⟨h1, h2⟩ := hgen htrig
    exact ⟨h1, _, h2, (mk_fresh_valid _ now).1, (mk_fresh_valid _ now).2⟩
  · intro htrig
    rw [hlen] at htrig
    exact hnogen htrig

/-- C4 witness: a checkout that makes the live order count 3 on a store
whose order_counter is 99 and which already holds an unused code; exactly
one fresh unused code is minted. -/
theorem c4_auto_generation_witness :
    (checkout c4wStore "u" none 0).1.orders.length =
      c4wStore.orders.length + 1 ∧
    ((checkout c4wStore "u" none 0).1.orders.length %
        DISCOUNT_ORDER_FREQUENCY = 0 →
       (checkout c4wStore "u" none 0).1.discount_codes.length =
         c4wStore.discount_codes.length + 1 ∧
       ∃ d, getAssoc (freshCodeName c4wStore)
           (checkout c4wStore "u" none 0).1.discount_codes = some d ∧
         d.is_used = false ∧ d.is_valid 0 = true) ∧
    ((checkout c4wStore "u" none 0).1.orders.length %
        DISCOUNT_ORDER_FREQUENCY ≠ 0 →
       (checkout c4wStore "u" none 0).1.discount_codes.length =
         c4wStore.discount_codes.length) :=
  c4_auto_generation c4wStore "u" none 0 ⟨7, "u", [0], 50, none, 0, 50, 0⟩
    (by
      norm_num [c4wStore, checkout, CartService.add_item_to_cart,
        InMemoryStore.get_cart, emptyStore, getAssoc, updAssoc,
        Cart.add_item, findItemAddr,
        OrderService.create_order, cartTotal, heapGet, truthy,
        InMemoryStore.save_order, Order.mk_post, CartService.clear_cart,
        DISCOUNT_ORDER_FREQUENCY, DiscountService.generate_discount_code,
        freshCodeName, DiscountCode.mk_post])
    (by decide)

/-- C6: adding an item whose item_id is already in the cart increments the
existing Item object's quantity in place and appends no duplicate line;
in particular adding item A with quantity 2 and then quantity 3 to a
fresh user's cart yields exactly one line item of quantity 5 and cart
total price × 5. -/
theorem c6_add_item_merges :
    (∀ (h : List Item) (c : Cart) (it : Item) (now : ℚ) (a : ℕ),
       findItemAddr h c.items it.item_id = some a →
       (Cart.add_item h c it now).2.items = c.items ∧
       (Cart.add_item h c it now).1 =
         h.set a { heapGet h a with
                     quantity := (heapGet h a).quantity + it.quantity }) ∧
    (∀ (uid nm : String) (price t1 t2 : ℚ), isBlank uid = false →
       ∃ c, getAssoc uid
           ((CartService.add_item_to_cart
             (CartService.add_item_to_cart emptyStore uid
               ⟨"A", nm, price, 2⟩ t1).1
             uid ⟨"A", nm, price, 3⟩ t2).1).carts = some c ∧
         observe ((CartService.add_item_to_cart
             (CartService.add_item_to_cart emptyStore uid
               ⟨"A", nm, price, 2⟩ t1).1
             uid ⟨"A", nm, price, 3⟩ t2).1).heap c.items =
           [⟨"A", nm, price, 5⟩] ∧
         cartTotal ((CartService.add_item_to_cart
             (CartService.add_item_to_cart emptyStore uid
               ⟨"A", nm, price, 2⟩ t1).1
             uid ⟨"A", nm, price, 3⟩ t2).1).heap c.items = price * 5) := by
  constructor
  · intro h c it now a hf
    constructor
    · simp [Cart.add_item, hf]
    · simp [Cart.add_item, hf]
  · intro uid nm price t1 t2 hu
    refine ⟨⟨uid, [0], t1, t2⟩, ?_, ?_, ?_⟩ <;>
      norm_num [CartService.add_item_to_cart, hu, InMemoryStore.get_cart,
        emptyStore, getAssoc, updAssoc, Cart.add_item, findItemAddr,
        heapGet, observe, cartTotal]

/-- C6 witness: the merge scenario run with concrete user "u1" and price
7: one line item of quantity 5 and total 35. -/
theorem c6_add_item_merges_witness :
    ∃ c, getAssoc "u1"
        ((CartService.add_item_to_cart
          (CartService.add_item_to_cart emptyStore "u1"
            ⟨"A", "Apple", 7, 2⟩ 0).1
          "u1" ⟨"A", "Apple", 7, 3⟩ 1).1).carts = some c ∧
      observe ((CartService.add_item_to_cart
          (CartService.add_item_to_cart emptyStore "u1"
            ⟨"A", "Apple", 7, 2⟩ 0).1
          "u1" ⟨"A", "Apple", 7, 3⟩ 1).1).heap c.items =
        [⟨"A", "Apple", 7, 5⟩] ∧
      cartTotal ((CartService.add_item_to_cart
          (CartService.add_item_to_cart emptyStore "u1"
            ⟨"A", "Apple", 7, 2⟩ 0).1
          "u1" ⟨"A", "Apple", 7, 3⟩ 1).1).heap c.items = 7 * 5 :=
  c6_add_item_merges.2 "u1" "Apple" 7 0 1 (by decide)

/-- C7: the admin generation endpoint fails exactly when the live order
count is not a multiple of DISCOUNT_ORDER_FREQUENCY or some stored code
is currently valid (unused and unexpired); when both checks pass it
appends exactly one fresh unused code.  By contrast the automatic
generation in checkout mints its code even when an unused valid code
already exists. -/
theorem c7_admin_generation (s : Store) (now : ℚ) :
    ((∃ e, (adminGenerateDiscountCode s now).2 = .error e) ↔
      (s.orders.length % DISCOUNT_ORDER_FREQUENCY ≠ 0 ∨
       DiscountService.has_unused_discount_code s now = true)) ∧
    (∀ d, (adminGenerateDiscountCode s now).2 = .ok d →
       getAssoc (freshCodeName s) s.discount_codes = none →
       (adminGenerateDiscountCode s now).1.discount_codes =
         s.discount_codes ++ [(freshCodeName s, d)] ∧ d.is_used = false) ∧
    (∀ uid dc order, DiscountService.has_unused_discount_code s now = true →
       getAssoc (freshCodeName s) s.discount_codes = none →
       (checkout s uid dc now).2 = .ok order →
       (checkout s uid dc now).1.orders.length % DISCOUNT_ORDER_FREQUENCY
         = 0 →
       (checkout s uid dc now).1.discount_codes.length =
         s.discount_codes.length + 1) := by
  refine ⟨?_, ?_, ?_⟩
  · unfold adminGenerateDiscountCode
    by_cases hm : s.orders.length % DISCOUNT_ORDER_FREQUENCY ≠ 0
    · rw [if_pos hm]
      simp [hm]
    · rw [if_neg hm]
      by_cases hu : DiscountService.has_unused_discount_code s now = true
      · rw [if_pos hu]
        simp [hm, hu]
      · rw [if_neg hu]
        simp [hm, hu]
  · intro d hok hfresh
    unfold adminGenerateDiscountCode at hok ⊢
    by_cases hm : s.orders.length % DISCOUNT_ORDER_FREQUENCY ≠ 0
    · rw [if_pos hm] at hok
      simp at hok
    · rw [if_neg hm] at hok ⊢
      by_cases hu : DiscountService.has_unused_discount_code s now = true
      · rw [if_pos hu] at hok
        simp at hok
      · rw [if_neg hu] at hok ⊢
        dsimp only [DiscountService.generate_discount_code] at hok ⊢
        have hd : DiscountCode.mk_post (freshCodeName s)
            discountServicePercentage false now none none = d :=
          Except.ok.inj hok
        constructor
        · rw [updAssoc_of_not_mem _ hfresh, hd]
        · rw [← hd]
          rfl
  · intro uid dc order hu hfresh hok htrig
    obtain ⟨hlen, hgen, _⟩ := checkout_gen_codes s uid dc now order hok hfresh
    have htrig' : (s.orders.length + 1) % DISCOUNT_ORDER_FREQUENCY = 0 := by
      rwa [hlen] at htrig
    exact (hgen htrig').1

/-- C7 witness: on a fresh store (0 orders, no codes) the admin endpoint
succeeds and appends exactly one fresh unused code. -/
theorem c7_admin_generation_witness :
    (adminGenerateDiscountCode emptyStore 0).1.discount_codes =
      emptyStore.discount_codes ++
        [(freshCodeName emptyStore,
          DiscountCode.mk_post (freshCodeName emptyStore)
            discountServicePercentage false 0 none none)] ∧
    (DiscountCode.mk_post (freshCodeName emptyStore)
      discountServicePercentage false 0 none none).is_used = false :=
  (c7_admin_generation emptyStore 0).2.1
    (DiscountCode.mk_post (freshCodeName emptyStore)
      discountServicePercentage false 0 none none)
    (by
      norm_num [adminGenerateDiscountCode, emptyStore,
        DISCOUNT_ORDER_FREQUENCY, DiscountService.has_unused_discount_code,
        InMemoryStore.get_unused_discount_codes,
        DiscountService.generate_discount_code])
    (by decide)

/-- C8: a successful `create_order` with a stored valid code leaves the
stored discount codes exactly as they were (in particular the applied
code's is_used and used_at are untouched), so the code is still valid
afterwards; consuming it is the caller's separate DiscountService step. -/
theorem c8_create_order_leaves_codes (s : Store) (cart : Cart)
    (code : String) (now : ℚ) (d : DiscountCode) (o : Order)
    (hd : getAssoc code s.discount_codes = some d)
    (hv : d.is_valid now = true)
    (_hok : (OrderService.create_order s cart (some code) now).2 = .ok o) :
    (OrderService.create_order s cart (some code) now).1.discount_codes =
      s.discount_codes ∧
    DiscountService.is_discount_code_valid
      (OrderService.create_order s cart (some code) now).1 code now =
      true := by
  refine ⟨create_order_codes s cart (some code) now, ?_⟩
  unfold DiscountService.is_discount_code_valid
  rw [create_order_codes s cart (some code) now, hd]
  exact hv

/-- C8 witness: creating an order against the valid stored code "SAVE10"
leaves the code store unchanged and the code still valid. -/
theorem c8_create_order_leaves_codes_witness :
    (OrderService.create_order c8wStore c8wCart (some "SAVE10") 0).1.discount_codes
      = c8wStore.discount_codes ∧
    DiscountService.is_discount_code_valid
      (OrderService.create_order c8wStore c8wCart (some "SAVE10") 0).1
      "SAVE10" 0 = true :=
  c8_create_order_leaves_codes c8wStore c8wCart "SAVE10" 0
    (DiscountCode.mk_post "SAVE10" 10 false 0 none none)
    ⟨0, "u", [0], 30, some "SAVE10", 3, 27, 0⟩
    (by norm_num [c8wStore, emptyStore, getAssoc])
    (by norm_num [DiscountCode.mk_post, DiscountCode.is_valid,
      timedelta_days])
    (by
      norm_num [c8wStore, c8wCart, OrderService.create_order, emptyStore,
        getAssoc, cartTotal, heapGet, truthy,
        show ("SAVE10" : String) ≠ "" from by decide,
        InMemoryStore.save_order, Order.mk_post, DiscountCode.mk_post,
        DiscountCode.is_valid, timedelta_days])

/-- C9: for every constructed DiscountCode, is_valid holds iff the code
is unused and now ≤ expires_at; expires_at defaults to created_at + 30
days when not given; and an explicit past expires_at makes the code
invalid even when unused. -/
theorem c9_is_valid_characterization (code : String) (pct : ℚ) (used : Bool)
    (created : ℚ) (uat eat : Option ℚ) (now : ℚ) :
    (∃ e, (DiscountCode.mk_post code pct used created uat eat).expires_at =
        some e ∧
      ((DiscountCode.mk_post code pct used created uat eat).is_valid now =
          true ↔ (used = false ∧ now ≤ e))) ∧
    (eat = none →
      (DiscountCode.mk_post code pct used created uat eat).expires_at =
        some (created + timedelta_days 30)) ∧
    (∀ e, eat = some e → e < now →
      (DiscountCode.mk_post code pct used created uat eat).is_valid now =
        false) := by
  refine ⟨⟨eat.getD (created + timedelta_days 30), rfl, ?_⟩, ?_, ?_⟩
  · cases used with
    | false =>
        by_cases hc : now > eat.getD (created + timedelta_days 30)
        · simp [DiscountCode.mk_post, DiscountCode.is_valid, hc,
            not_le.mpr hc]
        · simp [DiscountCode.mk_post, DiscountCode.is_valid, hc,
            not_lt.mp hc]
    | true => simp [DiscountCode.mk_post, DiscountCode.is_valid]
  · intro he
    rw [he]
    rfl
  · intro e he hlt
    subst he
    cases used <;>
      simp [DiscountCode.mk_post, DiscountCode.is_valid, hlt]

/-- C9 witness: an unused code constructed with expires_at in the past is
invalid. -/
theorem c9_is_valid_characterization_witness :
    (DiscountCode.mk_post "X" 10 false 0 none (some (-1))).is_valid 0 =
      false :=
  (c9_is_valid_characterization "X" 10 false 0 none (some (-1)) 0).2.2
    (-1) rfl (by norm_num)

/-- C10: removeItem for a user with no stored cart fails with the
not-found error, yet the failing call has already created and persisted
an empty cart for that user (the carts map gains an entry that was not
there before); a user whose cart lacks the item also gets the not-found
failure. -/
theorem c10_remove_item_creates_cart (s : Store) (uid iid : String)
    (now : ℚ) :
    (getAssoc uid s.carts = none →
       (CartService.remove_item_from_cart s uid iid now).2 =
         .error ("Item " ++ iid ++ " not found in cart") ∧
       getAssoc uid
         (CartService.remove_item_from_cart s uid iid now).1.carts =
         some ⟨uid, [], now, now⟩) ∧
    (∀ c, getAssoc uid s.carts = some c →
       findItemAddr s.heap c.items iid = none →
       (CartService.remove_item_from_cart s uid iid now).2 =
         .error ("Item " ++ iid ++ " not found in cart")) := by
  constructor
  · intro hnone
    have hgc : InMemoryStore.get_cart s uid now =
        ({ s with carts := updAssoc uid ⟨uid, [], now, now⟩ s.carts },
         ⟨uid, [], now, now⟩) := by
      unfold InMemoryStore.get_cart
      rw [hnone]
    unfold CartService.remove_item_from_cart
    rw [hgc]
    constructor
    · rfl
    · show getAssoc uid (updAssoc uid ⟨uid, [], now, now⟩ s.carts) =
        some ⟨uid, [], now, now⟩
      exact getAssoc_updAssoc_self uid ⟨uid, [], now, now⟩ s.carts
  · intro c hc hfind
    have hgc : InMemoryStore.get_cart s uid now = (s, c) := by
      unfold InMemoryStore.get_cart
      rw [hc]
    unfold CartService.remove_item_from_cart
    rw [hgc]
    dsimp only
    rw [hfind]

/-- C10 witness: removing item "X" for unknown user "ghost" on a fresh
store fails and leaves a persisted empty cart for "ghost". -/
theorem c10_remove_item_creates_cart_witness :
    (CartService.remove_item_from_cart emptyStore "ghost" "X" 0).2 =
      .error ("Item " ++ "X" ++ " not found in cart") ∧
    getAssoc "ghost"
      (CartService.remove_item_from_cart emptyStore "ghost" "X" 0).1.carts =
      some ⟨"ghost", [], 0, 0⟩ :=
  (c10_remove_item_creates_cart emptyStore "ghost" "X" 0).1 rfl
